import Mathlib

/-
Verification development for the remote extension-host connection manager
(`ExtensionHostConnection` and `buildUserEnvironment`).

The TypeScript source is shallowly embedded: byte buffers (`VSBuffer`) become
lists of naturals, the two transport variants (`NodeSocket`,
`WebSocketNodeSocket`) become a tagged union, the process environment becomes
an insertion-ordered association list from names to `string | null` values,
and the stateful `ExtensionHostConnection` object becomes an explicit state
record driven by a step function over external events (method calls and child
process events).  Side effects (socket end, process kill, message sends,
the closure emitter firing) are recorded as an explicit effect trace.
-/

/-- Byte buffers (`VSBuffer`) as lists of byte values. -/
abbrev Bytes := List Nat

/-- The two transport variants accepted by the connection:
`NodeSocket` (plain socket, carrying its raw OS handle) and
`WebSocketNodeSocket` (upgraded socket, additionally carrying its
permessage-deflate flag and the bytes recorded by the inflater during the
handshake).  The variant is fixed at construction. -/
inductive Transport where
  | nodeSocket (handle : Nat)
  | webSocketNodeSocket (handle : Nat) (permessageDeflate : Bool) (recordedInflateBytes : Bytes)
deriving DecidableEq

/-- The raw OS-level socket handle underlying either transport variant
(`socket.socket` for a plain socket, `socket.socket.socket` for an
upgraded one). -/
def Transport.handle : Transport → Nat
  | .nodeSocket h => h
  | .webSocketNodeSocket h _ _ => h

/-- The base64 alphabet used by `Buffer.toString('base64')`. -/
def base64Chars : List Char :=
  "ABCDEFGHIJKLMNOPQRSTUVWXYZabcdefghijklmnopqrstuvwxyz0123456789+/".toList

/-- The base64 digit for a 6-bit value. -/
def base64Char (n : Nat) : Char := base64Chars.getD n '?'

/-- RFC 4648 base64 encoding of a byte list, as produced by
`Buffer.toString('base64')` (with padding). -/
def base64Encode : Bytes → String
  | [] => ""
  | [a] =>
      String.mk [base64Char (a / 4 % 64), base64Char (a % 4 * 16), '=', '=']
  | [a, b] =>
      String.mk [base64Char (a / 4 % 64), base64Char (a % 4 * 16 + b / 16 % 16),
                 base64Char (b % 16 * 4), '=']
  | a :: b :: c :: rest =>
      String.mk [base64Char (a / 4 % 64), base64Char (a % 4 * 16 + b / 16 % 16),
                 base64Char (b % 16 * 4 + c / 64 % 4), base64Char (c % 64)]
        ++ base64Encode rest

/-- The `IExtHostSocketMessage` handoff descriptor sent to the worker
process together with the native socket handle. -/
structure IExtHostSocketMessage where
  type : String
  initialDataChunk : String
  skipWebSocketFrames : Bool
  permessageDeflate : Bool
  inflateBytes : String
deriving DecidableEq

/-- `ConnectionData`: one transport paired with the bytes already read from
the wire before the transport was captured. -/
structure ConnectionData where
  socket : Transport
  initialDataChunk : Bytes
deriving DecidableEq

/-- `ConnectionData.toIExtHostSocketMessage`: builds the handoff descriptor.
For a plain `NodeSocket`: frames are skipped, no compression, empty replay
bytes; for a `WebSocketNodeSocket`: frames are not skipped, and the
compression flag and replay bytes come from the socket. -/
def ConnectionData.toIExtHostSocketMessage (cd : ConnectionData) : IExtHostSocketMessage :=
  let skipWebSocketFrames : Bool :=
    match cd.socket with
    | .nodeSocket _ => true
    | .webSocketNodeSocket _ _ _ => false
  let permessageDeflate : Bool :=
    match cd.socket with
    | .nodeSocket _ => false
    | .webSocketNodeSocket _ pmd _ => pmd
  let inflateBytes : Bytes :=
    match cd.socket with
    | .nodeSocket _ => []
    | .webSocketNodeSocket _ _ bs => bs
  { type := "VSCODE_EXTHOST_IPC_SOCKET"
    initialDataChunk := base64Encode cd.initialDataChunk
    skipWebSocketFrames := skipWebSocketFrames
    permessageDeflate := permessageDeflate
    inflateBytes := base64Encode inflateBytes }

/-- A process environment: insertion-ordered association list from variable
names to values, where `none` models the JavaScript value `null`. -/
abbrev Env := List (String × Option String)

/-- Look a key up in an environment.  The outer `Option` distinguishes an
absent key (JavaScript `undefined`) from a present one. -/
def envLookup : Env → String → Option (Option String)
  | [], _ => none
  | (k, v) :: rest, key => if k = key then some v else envLookup rest key

/-- JavaScript property assignment `env[k] = v`: overwrite in place if the
key exists, otherwise append (insertion order preserved). -/
def envSet : Env → String → Option String → Env
  | [], k, v => [(k, v)]
  | (k', v') :: rest, k, v =>
      if k' = k then (k, v) :: rest else (k', v') :: envSet rest k v

/-- JavaScript object spread `{...base, ...overlay}`: each overlay entry is
assigned in order on top of the base. -/
def envMerge (base overlay : Env) : Env :=
  overlay.foldl (fun e kv => envSet e kv.1 kv.2) base

/-- `readCaseInsensitive`: find the first key matching case-insensitively
(falling back to the key itself) and read its value. -/
def readCaseInsensitive (env : Env) (key : String) : Option (Option String) :=
  let pathKeys := (env.map Prod.fst).filter (fun k => k.toLower == key.toLower)
  let pathKey := match pathKeys with
    | [] => key
    | k :: _ => k
  envLookup env pathKey

/-- `setCaseInsensitive`: find the first key matching case-insensitively
(falling back to the key itself) and assign the value there. -/
def setCaseInsensitive (env : Env) (key : String) (value : String) : Env :=
  let pathKeys := (env.map Prod.fst).filter (fun k => k.toLower == key.toLower)
  let pathKey := match pathKeys with
    | [] => key
    | k :: _ => k
  envSet env pathKey (some value)

/-- `removeNulls`: delete every key whose value is `null`. -/
def removeNulls (env : Env) : Env :=
  env.filter (fun kv => kv.2.isSome)

/-- `buildUserEnvironment`: starts from the current process environment,
overlays the resolved user shell environment (when requested; resolution
failure is modelled by the caller passing an empty `userShellEnv`), overlays
the fixed worker-mode variables, overlays the caller-supplied
`startParamsEnv` last, prepends the remote-cli folder to the PATH-like
variable case-insensitively, optionally sets BROWSER, and strips nulls.
The ambient inputs of the source (`process.env`, the resolved shell
environment, the serialized NLS config, folder paths and the platform path
delimiter) are passed explicitly. -/
def buildUserEnvironment (startParamsEnv : Env) (withUserShellEnvironment : Bool)
    (isDebug : Bool) (nlsConfigJson : String) (userShellEnv : Env) (processEnv : Env)
    (binFolder : String) (delim : String) (withoutBrowserEnvVar : Bool)
    (isWindows : Bool) : Env :=
  let shellEnv : Env := if withUserShellEnvironment then userShellEnv else []
  let fixedEnv : Env :=
    [("VSCODE_LOG_NATIVE", some (if isDebug then "true" else "false")),
     ("VSCODE_AMD_ENTRYPOINT", some "vs/workbench/api/node/extensionHostProcess"),
     ("VSCODE_PIPE_LOGGING", some "true"),
     ("VSCODE_VERBOSE_LOGGING", some "true"),
     ("VSCODE_HANDLES_UNCAUGHT_ERRORS", some "true"),
     ("VSCODE_LOG_STACK", some "false"),
     ("VSCODE_NLS_CONFIG", some nlsConfigJson)]
  let env0 := envMerge (envMerge (envMerge processEnv shellEnv) fixedEnv) startParamsEnv
  let remoteCliBinFolder := binFolder ++ "/" ++ "remote-cli"
  let pathValue := readCaseInsensitive env0 "PATH"
  let newPath :=
    match pathValue with
    | some (some s) => if s == "" then remoteCliBinFolder else remoteCliBinFolder ++ delim ++ s
    | _ => remoteCliBinFolder
  let env1 := setCaseInsensitive env0 "PATH" newPath
  let env2 :=
    if withoutBrowserEnvVar then env1
    else envSet env1 "BROWSER"
      (some (binFolder ++ "/helpers/" ++ (if isWindows then "browser.cmd" else "browser.sh")))
  removeNulls env2

/-- Observable side effects of the connection, recorded as a trace:
transport `end()` calls, child-process kills, the `_onClose` emitter firing,
completed `drain()`s, messages sent to the worker (the socket handoff
descriptor together with the raw handle, and the reduce-grace-time control
message), spawns (carrying the environment given to `cp.fork`), exit-info
recording, and error logging. -/
inductive Effect where
  | socketEnd (t : Transport)
  | killProcess (pid : Nat)
  | closeEmitted
  | drained (t : Transport)
  | sendSocketMessage (msg : IExtHostSocketMessage) (handle : Nat)
  | sendReduceGraceTime (pid : Nat) (msgType : String)
  | spawned (pid : Nat) (env : Env)
  | setExitInfo (reconnectionToken : String) (code : Int) (signal : String)
  | logErrorEffect (msg : String)
deriving DecidableEq

/-- The mutable state of one `ExtensionHostConnection`:
the reconnection token, the capability decided in the constructor
(`_canSendSocket`), the `_disposed` flag, the current remote address, the
child process reference (`_extensionHostProcess`, by pid), the pending
`_connectionData`, and whether the one-shot ready-message listener installed
by `start()` (direct handoff mode) is still attached. -/
structure SessionState where
  reconnectionToken : String
  canSendSocket : Bool
  disposed : Bool
  remoteAddress : String
  extensionHostProcess : Option Nat
  connectionData : Option ConnectionData
  readyListenerActive : Bool
deriving DecidableEq

/-- Truthiness of an optional string argument (absent and the empty string
are falsy, as in JavaScript). -/
def isTruthy : Option String → Bool
  | none => false
  | some s => !(s == "")

/-- The constructor: `_canSendSocket` is decided once from the platform and
the `socket-path` argument; the state starts not disposed, with no process
and with the initial `ConnectionData`. -/
def mkSession (reconnectionToken remoteAddress : String) (socket : Transport)
    (initialDataChunk : Bytes) (isWindows : Bool) (socketPathArg : Option String) :
    SessionState :=
  { reconnectionToken := reconnectionToken
    canSendSocket := !isWindows || !(isTruthy socketPathArg)
    disposed := false
    remoteAddress := remoteAddress
    extensionHostProcess := none
    connectionData := some ⟨socket, initialDataChunk⟩
    readyListenerActive := false }

/-- `_sendSocketToExtensionHost`: awaits the transport drain, then sends the
handoff descriptor together with the raw socket handle.  The drain effect is
recorded before the send. -/
def sendSocketToExtensionHost (cd : ConnectionData) : List Effect :=
  [Effect.drained cd.socket,
   Effect.sendSocketMessage cd.toIExtHostSocketMessage cd.socket.handle]

/-- `_cleanResources`: a no-op once `_disposed` is set; otherwise sets the
flag, ends the pending transport (if any), kills the child process (if any),
nulls both references and fires `_onClose` once. -/
def cleanResources (s : SessionState) : SessionState × List Effect :=
  if s.disposed then (s, [])
  else
    ({ s with disposed := true, connectionData := none, extensionHostProcess := none },
      (match s.connectionData with
       | some cd => [Effect.socketEnd cd.socket]
       | none => []) ++
      (match s.extensionHostProcess with
       | some pid => [Effect.killProcess pid]
       | none => []) ++
      [Effect.closeEmitted])

/-- `shortenReconnectionGraceTimeIfNecessary`: a no-op without a live
process; otherwise sends the reduce-grace-time control message. -/
def shortenReconnectionGraceTimeIfNecessary (s : SessionState) : SessionState × List Effect :=
  match s.extensionHostProcess with
  | none => (s, [])
  | some pid => (s, [Effect.sendReduceGraceTime pid "VSCODE_EXTHOST_IPC_REDUCE_GRACE_TIME"])

/-- `acceptReconnection`: updates the remote address and builds a new
`ConnectionData`; if no process reference is live yet the data is stored
(replacing any previously stored one), otherwise it is sent to the live
process immediately. -/
def acceptReconnection (s : SessionState) (remoteAddress : String) (socket : Transport)
    (initialDataChunk : Bytes) : SessionState × List Effect :=
  let s1 := { s with remoteAddress := remoteAddress }
  let cd : ConnectionData := ⟨socket, initialDataChunk⟩
  match s1.extensionHostProcess with
  | none => ({ s1 with connectionData := some cd }, [])
  | some _ => (s1, sendSocketToExtensionHost cd)

/-- The outcome of the `cp.fork` call inside `start()`: either a live child
process or a synchronous throw. -/
inductive SpawnOutcome where
  | ok (pid : Nat)
  | err
deriving DecidableEq

/-- `start()`: on a successful fork, stores the process reference and, in
direct handoff mode, attaches the one-shot ready listener after setting
VSCODE_EXTHOST_WILL_SEND_SOCKET; in listening-endpoint mode the random pipe
name (an input here) is passed via VSCODE_IPC_HOOK_EXTHOST instead.  When
the spawn step throws, the catch block only logs: no state changes. -/
def start (s : SessionState) (env : Env) (pipeName : String) (outcome : SpawnOutcome) :
    SessionState × List Effect :=
  match outcome with
  | .err => (s, [Effect.logErrorEffect "ExtensionHostConnection errored"])
  | .ok pid =>
      let env1 :=
        if s.canSendSocket then envSet env "VSCODE_EXTHOST_WILL_SEND_SOCKET" (some "true")
        else envSet env "VSCODE_IPC_HOOK_EXTHOST" (some pipeName)
      ({ s with extensionHostProcess := some pid, readyListenerActive := s.canSendSocket },
       [Effect.spawned pid env1])

/-- The worker's ready message arriving (direct handoff mode): while the
one-shot listener is attached, it detaches itself, sends the pending
`ConnectionData` to the process and nulls the reference.  (With no pending
data the source would dereference null; no send happens.) -/
def workerReady (s : SessionState) : SessionState × List Effect :=
  match s.extensionHostProcess with
  | none => (s, [])
  | some _ =>
      if s.readyListenerActive then
        (({ s with readyListenerActive := false, connectionData := none }),
         match s.connectionData with
         | some cd => sendSocketToExtensionHost cd
         | none => [])
      else (s, [])

/-- The child process `exit` event: records the exit info, then runs
`_cleanResources` (the listener stays attached to the process object, so
this also fires after an explicit kill; the disposed guard makes the second
cleanup a no-op). -/
def workerExit (s : SessionState) (code : Int) (signal : String) : SessionState × List Effect :=
  let r := cleanResources s
  (r.1, Effect.setExitInfo s.reconnectionToken code signal :: r.2)

/-- The child process `error` event: logs, then runs `_cleanResources`. -/
def workerError (s : SessionState) : SessionState × List Effect :=
  let r := cleanResources s
  (r.1, Effect.logErrorEffect "Extension Host Process had an error" :: r.2)

/-- External events driving one session: the public method calls and the
child-process events wired up in `start()`. -/
inductive SessionEvent where
  | startCall (env : Env) (pipeName : String) (outcome : SpawnOutcome)
  | accept (remoteAddress : String) (socket : Transport) (initialDataChunk : Bytes)
  | shorten
  | ready
  | exit (code : Int) (signal : String)
  | error
deriving DecidableEq

/-- One step of the session state machine. -/
def step (s : SessionState) : SessionEvent → SessionState × List Effect
  | .startCall env pipeName outcome => start s env pipeName outcome
  | .accept remoteAddress socket chunk => acceptReconnection s remoteAddress socket chunk
  | .shorten => shortenReconnectionGraceTimeIfNecessary s
  | .ready => workerReady s
  | .exit code signal => workerExit s code signal
  | .error => workerError s

/-- Run a sequence of events, accumulating the effect trace. -/
def runEvents (s : SessionState) : List SessionEvent → SessionState × List Effect
  | [] => (s, [])
  | e :: es =>
      let r1 := step s e
      let r2 := runEvents r1.1 es
      (r2.1, r1.2 ++ r2.2)

/-- Iterate `_cleanResources` n times, accumulating effects. -/
def cleanN : Nat → SessionState → SessionState × List Effect
  | 0, s => (s, [])
  | n + 1, s =>
      let r1 := cleanResources s
      let r2 := cleanN n r1.1
      (r2.1, r1.2 ++ r2.2)

/-- Effect classifiers used by the trace-counting statements. -/
def isCloseEmitted : Effect → Bool
  | .closeEmitted => true
  | _ => false

def isKillProcess : Effect → Bool
  | .killProcess _ => true
  | _ => false

def isSocketEnd : Effect → Bool
  | .socketEnd _ => true
  | _ => false

def isSocketEndOf (t : Transport) : Effect → Bool
  | .socketEnd t' => t' == t
  | _ => false

def isSendSocket : Effect → Bool
  | .sendSocketMessage _ _ => true
  | _ => false

/-- The last element of a list, if any. -/
def lastOf : List α → Option α
  | [] => none
  | [a] => some a
  | _ :: b :: l => lastOf (b :: l)

/-- The net state effect of a run of `acceptReconnection` calls made while
no process reference is live: each call updates the remote address and
replaces the stored `ConnectionData`. -/
def acceptsState (s : SessionState) : List (String × Transport × Bytes) → SessionState
  | [] => s
  | a :: l =>
      acceptsState { s with remoteAddress := a.1, connectionData := some ⟨a.2.1, a.2.2⟩ } l

/-- Map a reconnection triple to its session event. -/
def toAcceptEvent (a : String × Transport × Bytes) : SessionEvent :=
  SessionEvent.accept a.1 a.2.1 a.2.2

/-- Checker for the drain-before-handoff ordering: scanning the trace left
to right while accumulating the handles of drained transports, every
socket-handoff send must carry a handle whose transport was already
drained. -/
def checkDrainBeforeSend : List Nat → List Effect → Bool
  | _, [] => true
  | seen, Effect.drained t :: rest => checkDrainBeforeSend (t.handle :: seen) rest
  | seen, Effect.sendSocketMessage _ h :: rest =>
      seen.contains h && checkDrainBeforeSend seen rest
  | seen, _ :: rest => checkDrainBeforeSend seen rest

/-- The drained handles accumulated over a trace prefix. -/
def drainAcc : List Nat → List Effect → List Nat
  | seen, [] => seen
  | seen, Effect.drained t :: rest => drainAcc (t.handle :: seen) rest
  | seen, _ :: rest => drainAcc seen rest

/-- Observable side effects of the named-pipe relay (`_pipeSockets`):
disposing the client transport, destroying the worker-side endpoint socket,
and the two forwarding directions. -/
inductive RelayEffect where
  | disposeTransport (t : Transport)
  | destroyExtHostSocket
  | writeToExtHost (b : Bytes)
  | writeToTransport (b : Bytes)
deriving DecidableEq

/-- The state of one relay: the client transport, plus whether the shared
`DisposableStore` has already been disposed.  Modelled from the spec: the
`DisposableStore` of `vs/base/common/lifecycle` is not part of the sources
here; per its contract, disposing it releases every registered disposable
(in registration order) and a second dispose is a no-op. -/
structure RelayState where
  transport : Transport
  torn : Bool
deriving DecidableEq

/-- Events a relay reacts to: end/close on the client transport,
end/close/error on the worker-side endpoint socket, and data arriving on
either side. -/
inductive RelayEvent where
  | transportEnd
  | transportClose
  | extHostEnd
  | extHostClose
  | extHostError
  | transportData (b : Bytes)
  | extHostData (b : Bytes)
deriving DecidableEq

/-- Whether an event is one of the five teardown triggers wired to
`stopAndCleanup`. -/
def RelayEvent.isTeardown : RelayEvent → Bool
  | .transportEnd => true
  | .transportClose => true
  | .extHostEnd => true
  | .extHostClose => true
  | .extHostError => true
  | _ => false

/-- `stopAndCleanup`: disposes the shared store, which (once) disposes the
client transport and destroys the endpoint socket; afterwards a no-op. -/
def stopAndCleanup (r : RelayState) : RelayState × List RelayEffect :=
  if r.torn then (r, [])
  else ({ r with torn := true },
        [RelayEffect.disposeTransport r.transport, RelayEffect.destroyExtHostSocket])

/-- One step of the relay: any teardown trigger runs `stopAndCleanup`; data
events forward bytes to the other side while the listeners are alive. -/
def relayStep (r : RelayState) (e : RelayEvent) : RelayState × List RelayEffect :=
  if e.isTeardown then stopAndCleanup r
  else
    match e with
    | .transportData b => if r.torn then (r, []) else (r, [RelayEffect.writeToExtHost b])
    | .extHostData b => if r.torn then (r, []) else (r, [RelayEffect.writeToTransport b])
    | _ => (r, [])

/-- Run a sequence of relay events, accumulating effects. -/
def runRelay (r : RelayState) : List RelayEvent → RelayState × List RelayEffect
  | [] => (r, [])
  | e :: es =>
      let r1 := relayStep r e
      let r2 := runRelay r1.1 es
      (r2.1, r1.2 ++ r2.2)

def isDisposeTransport : RelayEffect → Bool
  | .disposeTransport _ => true
  | _ => false

def isDestroyExtHostSocket : RelayEffect → Bool
  | .destroyExtHostSocket => true
  | _ => false

/-- A concrete fresh session used by the concrete counterexamples:
non-Windows platform, no socket-path argument, one plain transport with a
small initial chunk. -/
def sampleSession : SessionState :=
  mkSession "token-sample" "addr1" (Transport.nodeSocket 10) [1, 2] false none

theorem cleanResources_disposed (s : SessionState) (h : s.disposed = true) :
    cleanResources s = (s, []) := by
  simp [cleanResources, h]

theorem cleanResources_sets_disposed (s : SessionState) :
    (cleanResources s).1.disposed = true := by
  cases h : s.disposed <;> simp [cleanResources, h]

theorem cleanN_disposed (n : Nat) (s : SessionState) (h : s.disposed = true) :
    cleanN n s = (s, []) := by
  induction n with
  | zero => simp [cleanN]
  | succ n ih => simp [cleanN, cleanResources_disposed s h, ih]

theorem runEvents_append (s : SessionState) (l1 l2 : List SessionEvent) :
    runEvents s (l1 ++ l2) =
      ((runEvents (runEvents s l1).1 l2).1,
       (runEvents s l1).2 ++ (runEvents (runEvents s l1).1 l2).2) := by
  induction l1 generalizing s with
  | nil => simp [runEvents]
  | cons e l ih => simp [runEvents, ih]

theorem step_accept_noProcess (s : SessionState) (a : String × Transport × Bytes)
    (hp : s.extensionHostProcess = none) :
    step s (toAcceptEvent a) =
      ({ s with remoteAddress := a.1, connectionData := some ⟨a.2.1, a.2.2⟩ }, []) := by
  simp [step, toAcceptEvent, acceptReconnection, hp]

theorem runAccepts (l : List (String × Transport × Bytes)) (s : SessionState)
    (hp : s.extensionHostProcess = none) :
    runEvents s (l.map toAcceptEvent) = (acceptsState s l, []) := by
  induction l generalizing s with
  | nil => simp [runEvents, acceptsState]
  | cons a l ih =>
      rw [List.map_cons]
      simp only [runEvents, step_accept_noProcess s a hp]
      rw [ih { s with remoteAddress := a.1, connectionData := some ⟨a.2.1, a.2.2⟩ } hp]
      simp [acceptsState]

theorem acceptsState_extensionHostProcess (l : List (String × Transport × Bytes))
    (s : SessionState) :
    (acceptsState s l).extensionHostProcess = s.extensionHostProcess := by
  induction l generalizing s with
  | nil => rfl
  | cons a l ih => simp [acceptsState, ih]

theorem acceptsState_canSendSocket (l : List (String × Transport × Bytes))
    (s : SessionState) :
    (acceptsState s l).canSendSocket = s.canSendSocket := by
  induction l generalizing s with
  | nil => rfl
  | cons a l ih => simp [acceptsState, ih]

theorem acceptsState_connectionData (l : List (String × Transport × Bytes))
    (a : String × Transport × Bytes) (s : SessionState) (h : lastOf l = some a) :
    (acceptsState s l).connectionData = some ⟨a.2.1, a.2.2⟩ := by
  induction l generalizing s with
  | nil => simp [lastOf] at h
  | cons b l ih =>
      cases l with
      | nil =>
          simp [lastOf] at h
          subst h
          simp [acceptsState]
      | cons c l' =>
          have h' : lastOf (c :: l') = some a := h
          simp only [acceptsState]
          exact ih _ h'

theorem checkDrainBeforeSend_append (l1 l2 : List Effect) (seen : List Nat) :
    checkDrainBeforeSend seen (l1 ++ l2) =
      (checkDrainBeforeSend seen l1 && checkDrainBeforeSend (drainAcc seen l1) l2) := by
  induction l1 generalizing seen with
  | nil => simp [checkDrainBeforeSend, drainAcc]
  | cons e l ih =>
      cases e <;> simp [checkDrainBeforeSend, drainAcc, ih, Bool.and_assoc]

theorem checkDrainBeforeSend_step (s : SessionState) (e : SessionEvent) (seen : List Nat) :
    checkDrainBeforeSend seen (step s e).2 = true := by
  cases e with
  | startCall env pn outcome =>
      cases outcome <;> simp [step, start, checkDrainBeforeSend]
  | accept addr sock chunk =>
      cases hp : s.extensionHostProcess <;>
        simp [step, acceptReconnection, hp, sendSocketToExtensionHost, checkDrainBeforeSend]
  | shorten =>
      cases hp : s.extensionHostProcess <;>
        simp [step, shortenReconnectionGraceTimeIfNecessary, hp, checkDrainBeforeSend]
  | ready =>
      cases hp : s.extensionHostProcess with
      | none => simp [step, workerReady, hp, checkDrainBeforeSend]
      | some pid =>
          cases hr : s.readyListenerActive with
          | false => simp [step, workerReady, hp, hr, checkDrainBeforeSend]
          | true =>
              cases hc : s.connectionData <;>
                simp [step, workerReady, hp, hr, hc, sendSocketToExtensionHost,
                      checkDrainBeforeSend]
  | exit code signal =>
      cases hd : s.disposed <;> cases hc : s.connectionData <;>
        cases hp : s.extensionHostProcess <;>
          simp [step, workerExit, cleanResources, hd, hc, hp, checkDrainBeforeSend]
  | error =>
      cases hd : s.disposed <;> cases hc : s.connectionData <;>
        cases hp : s.extensionHostProcess <;>
          simp [step, workerError, cleanResources, hd, hc, hp, checkDrainBeforeSend]

theorem checkDrainBeforeSend_runEvents (evs : List SessionEvent) :
    ∀ (s : SessionState) (seen : List Nat),
      checkDrainBeforeSend seen (runEvents s evs).2 = true := by
  induction evs with
  | nil => intro s seen; rfl
  | cons e es ih =>
      intro s seen
      simp [runEvents, checkDrainBeforeSend_append, checkDrainBeforeSend_step, ih]

theorem runRelay_torn (evs : List RelayEvent) (t : Transport) :
    runRelay ⟨t, true⟩ evs = (⟨t, true⟩, []) := by
  induction evs with
  | nil => rfl
  | cons e es ih =>
      cases e <;> simp [runRelay, relayStep, stopAndCleanup, RelayEvent.isTeardown, ih]

theorem removeNulls_all_some (e : Env) :
    (removeNulls e).all (fun kv => kv.2.isSome) = true := by
  rw [List.all_eq_true]
  intro kv hkv
  exact (List.mem_filter.mp hkv).2

/-- Claim C6: for every ConnectionData, the handoff descriptor carries the
fixed handoff-kind tag and the base64-encoded initial chunk; for a plain
NodeSocket transport the skip-framing flag is true, the compression flag is
false and the replay bytes are the encoding of the empty byte sequence; for
an upgraded WebSocketNodeSocket transport the skip-framing flag is false,
the compression flag equals the socket's permessage-deflate state and the
replay bytes are the base64 encoding of the socket's recorded inflate
bytes. -/
theorem c6_handoff_descriptor (cd : ConnectionData) :
    cd.toIExtHostSocketMessage.type = "VSCODE_EXTHOST_IPC_SOCKET" ∧
    cd.toIExtHostSocketMessage.initialDataChunk = base64Encode cd.initialDataChunk ∧
    (match cd.socket with
     | .nodeSocket _ =>
         cd.toIExtHostSocketMessage.skipWebSocketFrames = true ∧
         cd.toIExtHostSocketMessage.permessageDeflate = false ∧
         cd.toIExtHostSocketMessage.inflateBytes = base64Encode []
     | .webSocketNodeSocket _ pmd bs =>
         cd.toIExtHostSocketMessage.skipWebSocketFrames = false ∧
         cd.toIExtHostSocketMessage.permessageDeflate = pmd ∧
         cd.toIExtHostSocketMessage.inflateBytes = base64Encode bs) := by
  obtain ⟨sock, chunk⟩ := cd
  cases sock <;> simp [ConnectionData.toIExtHostSocketMessage]

theorem c6_witness :
    (ConnectionData.mk (Transport.webSocketNodeSocket 3 true [9]) [1]).toIExtHostSocketMessage.type =
      "VSCODE_EXTHOST_IPC_SOCKET" ∧
    (ConnectionData.mk (Transport.webSocketNodeSocket 3 true [9]) [1]).toIExtHostSocketMessage.initialDataChunk =
      base64Encode [1] ∧
    ((ConnectionData.mk (Transport.webSocketNodeSocket 3 true [9]) [1]).toIExtHostSocketMessage.skipWebSocketFrames = false ∧
     (ConnectionData.mk (Transport.webSocketNodeSocket 3 true [9]) [1]).toIExtHostSocketMessage.permessageDeflate = true ∧
     (ConnectionData.mk (Transport.webSocketNodeSocket 3 true [9]) [1]).toIExtHostSocketMessage.inflateBytes = base64Encode [9]) :=
  c6_handoff_descriptor (ConnectionData.mk (Transport.webSocketNodeSocket 3 true [9]) [1])

/-- Claim C8: for every set of inputs, the environment returned by
buildUserEnvironment contains no variable whose value is null — every entry
of the returned association list has a present (non-null) value. -/
theorem c8_no_null_values (startParamsEnv : Env) (withUserShellEnvironment : Bool)
    (isDebug : Bool) (nlsConfigJson : String) (userShellEnv processEnv : Env)
    (binFolder delim : String) (withoutBrowserEnvVar isWindows : Bool) :
    (buildUserEnvironment startParamsEnv withUserShellEnvironment isDebug nlsConfigJson
        userShellEnv processEnv binFolder delim withoutBrowserEnvVar isWindows).all
      (fun kv => kv.2.isSome) = true :=
  removeNulls_all_some _

theorem c8_witness :
    (buildUserEnvironment [("A", none), ("PATH", some "/usr/bin")] true false "nls"
        [("B", none)] [("A", some "x"), ("C", none)] "/app" ":" false false).all
      (fun kv => kv.2.isSome) = true :=
  c8_no_null_values [("A", none), ("PATH", some "/usr/bin")] true false "nls"
    [("B", none)] [("A", some "x"), ("C", none)] "/app" ":" false false

/-- Claim C9: shortenReconnectionGraceTimeIfNecessary is a no-op when no
worker process reference is live (state unchanged, nothing sent); when a
worker is live it sends exactly one reduce-grace-time control message to
that worker and changes no Session state. -/
theorem c9_shorten_grace_time (s : SessionState) :
    (s.extensionHostProcess = none →
        shortenReconnectionGraceTimeIfNecessary s = (s, [])) ∧
    (∀ pid, s.extensionHostProcess = some pid →
        shortenReconnectionGraceTimeIfNecessary s =
          (s, [Effect.sendReduceGraceTime pid "VSCODE_EXTHOST_IPC_REDUCE_GRACE_TIME"])) := by
  constructor
  · intro h; simp [shortenReconnectionGraceTimeIfNecessary, h]
  · intro pid h; simp [shortenReconnectionGraceTimeIfNecessary, h]

theorem c9_witness :
    shortenReconnectionGraceTimeIfNecessary sampleSession = (sampleSession, []) ∧
    shortenReconnectionGraceTimeIfNecessary
        { sampleSession with extensionHostProcess := some 7 } =
      ({ sampleSession with extensionHostProcess := some 7 },
       [Effect.sendReduceGraceTime 7 "VSCODE_EXTHOST_IPC_REDUCE_GRACE_TIME"]) :=
  ⟨(c9_shorten_grace_time sampleSession).1 rfl,
   (c9_shorten_grace_time { sampleSession with extensionHostProcess := some 7 }).2 7 rfl⟩

/-- Claim C4: the cleanup routine is idempotent — for any number n ≥ 1 of
invocations on one Session that is not yet disposed, the state after n
invocations equals the state after the first, exactly one closure
notification is emitted across all invocations, and the number of
worker-kill attempts is one if a worker process reference was live at the
first invocation and zero otherwise. -/
theorem c4_cleanup_idempotent (s : SessionState) (n : Nat)
    (hd : s.disposed = false) (hn : 1 ≤ n) :
    (cleanN n s).1 = (cleanResources s).1 ∧
    List.countP isCloseEmitted (cleanN n s).2 = 1 ∧
    List.countP isKillProcess (cleanN n s).2 =
      (if s.extensionHostProcess.isSome then 1 else 0) := by
  cases n with
  | zero => exact absurd hn (by simp)
  | succ m =>
      have h1 : (cleanResources s).1.disposed = true := cleanResources_sets_disposed s
      have h2 : cleanN m (cleanResources s).1 = ((cleanResources s).1, []) :=
        cleanN_disposed m _ h1
      have key : cleanN (m + 1) s = ((cleanResources s).1, (cleanResources s).2) := by
        simp [cleanN, h2]
      rw [key]
      refine ⟨rfl, ?_, ?_⟩ <;>
        cases hc : s.connectionData <;> cases hp : s.extensionHostProcess <;>
          simp [cleanResources, hd, hc, hp, isCloseEmitted, isKillProcess]

theorem c4_witness :
    (cleanN 3 sampleSession).1 = (cleanResources sampleSession).1 ∧
    List.countP isCloseEmitted (cleanN 3 sampleSession).2 = 1 ∧
    List.countP isKillProcess (cleanN 3 sampleSession).2 =
      (if sampleSession.extensionHostProcess.isSome then 1 else 0) :=
  c4_cleanup_idempotent sampleSession 3 rfl (by decide)

/-- The sample session after one cleanup: disposed, with no pending data and
no process. -/
def disposedSession : SessionState := (cleanResources sampleSession).1

/-- Claim C2 counterexample: on a disposed Session (cleanup already ran),
acceptReconnection is not a no-op — it updates the remote address and stores
a new ConnectionData — and start still spawns and stores a process
reference.  The source guards only the cleanup routine itself with the
disposed flag. -/
theorem c2_counterexample :
    disposedSession.disposed = true ∧
    disposedSession.remoteAddress = "addr1" ∧
    disposedSession.connectionData = none ∧
    (step disposedSession
        (SessionEvent.accept "addr2" (Transport.nodeSocket 11) [3])).1.remoteAddress = "addr2" ∧
    (step disposedSession
        (SessionEvent.accept "addr2" (Transport.nodeSocket 11) [3])).1.connectionData =
      some ⟨Transport.nodeSocket 11, [3]⟩ ∧
    (step disposedSession
        (SessionEvent.startCall [] "pipe" (SpawnOutcome.ok 5))).1.extensionHostProcess =
      some 5 :=
  ⟨rfl, rfl, rfl, rfl, rfl, rfl⟩

/-- Claim C2 (amended): once set by cleanup, the disposed flag is never
unset by any event, further cleanup calls are no-ops, and — because cleanup
also nulls the process reference — shortenReconnectionGraceTimeIfNecessary
is a no-op on a disposed Session with no live process.  (acceptReconnection
and start, however, are not guarded by the flag.) -/
theorem c2_disposed_permanent (s : SessionState) (e : SessionEvent)
    (h : s.disposed = true) (hp : s.extensionHostProcess = none) :
    (step s e).1.disposed = true ∧
    cleanResources s = (s, []) ∧
    shortenReconnectionGraceTimeIfNecessary s = (s, []) := by
  refine ⟨?_, cleanResources_disposed s h, ?_⟩
  · cases e with
    | startCall env pn outcome =>
        cases outcome <;> simp [step, start, h]
    | accept addr sock chunk =>
        cases hpp : s.extensionHostProcess <;>
          simp [step, acceptReconnection, hpp, h]
    | shorten =>
        cases hpp : s.extensionHostProcess <;>
          simp [step, shortenReconnectionGraceTimeIfNecessary, hpp, h]
    | ready =>
        cases hpp : s.extensionHostProcess with
        | none => simp [step, workerReady, hpp, h]
        | some pid =>
            cases hr : s.readyListenerActive <;>
              simp [step, workerReady, hpp, hr, h]
    | exit code signal =>
        simp [step, workerExit, cleanResources_disposed s h, h]
    | error =>
        simp [step, workerError, cleanResources_disposed s h, h]
  · simp [shortenReconnectionGraceTimeIfNecessary, hp]

theorem c2_witness :
    (step disposedSession SessionEvent.shorten).1.disposed = true ∧
    cleanResources disposedSession = (disposedSession, []) ∧
    shortenReconnectionGraceTimeIfNecessary disposedSession = (disposedSession, []) :=
  c2_disposed_permanent disposedSession SessionEvent.shorten rfl rfl

/-- Claim C1 counterexample: when the spawn step inside start() throws, the
catch block only logs — the Session does not transition to Closed (the
disposed flag stays false), no closure notification is emitted, the pending
ConnectionData is retained and its Transport is not closed. -/
theorem c1_counterexample :
    (step sampleSession (SessionEvent.startCall [] "pipe" SpawnOutcome.err)).1 =
      sampleSession ∧
    (step sampleSession (SessionEvent.startCall [] "pipe" SpawnOutcome.err)).2 =
      [Effect.logErrorEffect "ExtensionHostConnection errored"] ∧
    sampleSession.disposed = false ∧
    sampleSession.connectionData = some ⟨Transport.nodeSocket 10, [1, 2]⟩ :=
  ⟨rfl, rfl, rfl, rfl⟩

/-- Claim C1 (amended): a synchronous throw of the spawn step is only
logged, leaving the Session state untouched; the claimed cleanup behaviour
holds on the asynchronous spawn-failure path — when the forked process
emits an error event, the Session transitions to Closed, emits exactly one
closure notification, ends the pending ConnectionData's Transport exactly
once, and no socket-handoff message is ever sent to the worker. -/
theorem c1_spawn_failure (s : SessionState) (cd : ConnectionData) (env : Env)
    (pipeName : String) (pid : Nat) (hd : s.disposed = false)
    (hc : s.connectionData = some cd) :
    step s (SessionEvent.startCall env pipeName SpawnOutcome.err) =
      (s, [Effect.logErrorEffect "ExtensionHostConnection errored"]) ∧
    (runEvents s [SessionEvent.startCall env pipeName (SpawnOutcome.ok pid),
        SessionEvent.error]).1.disposed = true ∧
    List.countP isCloseEmitted
      (runEvents s [SessionEvent.startCall env pipeName (SpawnOutcome.ok pid),
          SessionEvent.error]).2 = 1 ∧
    List.countP (isSocketEndOf cd.socket)
      (runEvents s [SessionEvent.startCall env pipeName (SpawnOutcome.ok pid),
          SessionEvent.error]).2 = 1 ∧
    List.countP isSendSocket
      (runEvents s [SessionEvent.startCall env pipeName (SpawnOutcome.ok pid),
          SessionEvent.error]).2 = 0 := by
  refine ⟨by simp [step, start], ?_, ?_, ?_, ?_⟩ <;>
    simp [runEvents, step, start, workerError, cleanResources, hd, hc,
          isCloseEmitted, isSocketEndOf, isSendSocket]

theorem c1_witness :
    step sampleSession (SessionEvent.startCall [] "pipe" SpawnOutcome.err) =
      (sampleSession, [Effect.logErrorEffect "ExtensionHostConnection errored"]) ∧
    (runEvents sampleSession [SessionEvent.startCall [] "pipe" (SpawnOutcome.ok 5),
        SessionEvent.error]).1.disposed = true ∧
    List.countP isCloseEmitted
      (runEvents sampleSession [SessionEvent.startCall [] "pipe" (SpawnOutcome.ok 5),
          SessionEvent.error]).2 = 1 ∧
    List.countP (isSocketEndOf (ConnectionData.mk (Transport.nodeSocket 10) [1, 2]).socket)
      (runEvents sampleSession [SessionEvent.startCall [] "pipe" (SpawnOutcome.ok 5),
          SessionEvent.error]).2 = 1 ∧
    List.countP isSendSocket
      (runEvents sampleSession [SessionEvent.startCall [] "pipe" (SpawnOutcome.ok 5),
          SessionEvent.error]).2 = 0 :=
  c1_spawn_failure sampleSession (ConnectionData.mk (Transport.nodeSocket 10) [1, 2])
    [] "pipe" 5 rfl rfl

/-- Claim C3 counterexample: two reconnections arrive before the worker is
started; the trace up to readiness delivers only the most recent
ConnectionData but contains zero Transport close operations, although two
Transports (the constructor's and the first reconnection's) were
superseded — so the close count does not equal the superseded count. -/
theorem c3_counterexample :
    (runEvents sampleSession
        [toAcceptEvent ("addr2", Transport.nodeSocket 11, [3]),
         toAcceptEvent ("addr3", Transport.nodeSocket 12, [4]),
         SessionEvent.startCall [] "pipe" (SpawnOutcome.ok 5),
         SessionEvent.ready]).2 =
      [Effect.spawned 5 [("VSCODE_EXTHOST_WILL_SEND_SOCKET", some "true")],
       Effect.drained (Transport.nodeSocket 12),
       Effect.sendSocketMessage
         (ConnectionData.mk (Transport.nodeSocket 12) [4]).toIExtHostSocketMessage 12] ∧
    List.countP isSocketEnd
      (runEvents sampleSession
          [toAcceptEvent ("addr2", Transport.nodeSocket 11, [3]),
           toAcceptEvent ("addr3", Transport.nodeSocket 12, [4]),
           SessionEvent.startCall [] "pipe" (SpawnOutcome.ok 5),
           SessionEvent.ready]).2 = 0 :=
  ⟨rfl, rfl⟩

/-- Claim C3 (amended): for every sequence of reconnections arriving while
no worker process reference is live, only the ConnectionData from the most
recent reconnection is delivered to the worker once it signals readiness
(exactly one socket-handoff send, carrying that data's descriptor and
handle); the earlier undelivered Transports are dropped without being
closed — the trace contains zero Transport close operations. -/
theorem c3_latest_reconnection_delivered (s : SessionState)
    (l : List (String × Transport × Bytes)) (a : String × Transport × Bytes)
    (env : Env) (pipeName : String) (pid : Nat)
    (hp : s.extensionHostProcess = none) (hcs : s.canSendSocket = true)
    (hl : lastOf l = some a) :
    (runEvents s (l.map toAcceptEvent ++
        [SessionEvent.startCall env pipeName (SpawnOutcome.ok pid), SessionEvent.ready])).2 =
      [Effect.spawned pid (envSet env "VSCODE_EXTHOST_WILL_SEND_SOCKET" (some "true")),
       Effect.drained a.2.1,
       Effect.sendSocketMessage
         (ConnectionData.mk a.2.1 a.2.2).toIExtHostSocketMessage a.2.1.handle] ∧
    List.countP isSocketEnd
      (runEvents s (l.map toAcceptEvent ++
          [SessionEvent.startCall env pipeName (SpawnOutcome.ok pid),
           SessionEvent.ready])).2 = 0 ∧
    List.countP isSendSocket
      (runEvents s (l.map toAcceptEvent ++
          [SessionEvent.startCall env pipeName (SpawnOutcome.ok pid),
           SessionEvent.ready])).2 = 1 := by
  have hA_cs : (acceptsState s l).canSendSocket = true := by
    rw [acceptsState_canSendSocket]; exact hcs
  have hA_cd : (acceptsState s l).connectionData = some ⟨a.2.1, a.2.2⟩ :=
    acceptsState_connectionData l a s hl
  have key :
      (runEvents s (l.map toAcceptEvent ++
          [SessionEvent.startCall env pipeName (SpawnOutcome.ok pid), SessionEvent.ready])).2 =
        [Effect.spawned pid (envSet env "VSCODE_EXTHOST_WILL_SEND_SOCKET" (some "true")),
         Effect.drained a.2.1,
         Effect.sendSocketMessage
           (ConnectionData.mk a.2.1 a.2.2).toIExtHostSocketMessage a.2.1.handle] := by
    rw [runEvents_append, runAccepts l s hp]
    simp [runEvents, step, start, workerReady, hA_cs, hA_cd, sendSocketToExtensionHost]
  refine ⟨key, ?_, ?_⟩ <;> rw [key] <;> simp [isSocketEnd, isSendSocket]

theorem c3_witness :
    (runEvents sampleSession
        ([("addr2", Transport.nodeSocket 11, ([3] : Bytes)),
          ("addr3", Transport.nodeSocket 12, ([4] : Bytes))].map toAcceptEvent ++
         [SessionEvent.startCall [] "pipe" (SpawnOutcome.ok 5), SessionEvent.ready])).2 =
      [Effect.spawned 5 (envSet [] "VSCODE_EXTHOST_WILL_SEND_SOCKET" (some "true")),
       Effect.drained (Transport.nodeSocket 12),
       Effect.sendSocketMessage
         (ConnectionData.mk (Transport.nodeSocket 12) [4]).toIExtHostSocketMessage
         (Transport.nodeSocket 12).handle] ∧
    List.countP isSocketEnd
      (runEvents sampleSession
          ([("addr2", Transport.nodeSocket 11, ([3] : Bytes)),
            ("addr3", Transport.nodeSocket 12, ([4] : Bytes))].map toAcceptEvent ++
           [SessionEvent.startCall [] "pipe" (SpawnOutcome.ok 5),
            SessionEvent.ready])).2 = 0 ∧
    List.countP isSendSocket
      (runEvents sampleSession
          ([("addr2", Transport.nodeSocket 11, ([3] : Bytes)),
            ("addr3", Transport.nodeSocket 12, ([4] : Bytes))].map toAcceptEvent ++
           [SessionEvent.startCall [] "pipe" (SpawnOutcome.ok 5),
            SessionEvent.ready])).2 = 1 :=
  c3_latest_reconnection_delivered sampleSession
    [("addr2", Transport.nodeSocket 11, [3]), ("addr3", Transport.nodeSocket 12, [4])]
    ("addr3", Transport.nodeSocket 12, [4]) [] "pipe" 5 rfl rfl rfl

/-- Claim C5: whenever a socket-handoff message with the raw handle is sent
to the worker — on first readiness or on reconnection — the drain of that
ConnectionData's Transport has completed earlier in the trace: scanning any
reachable effect trace left to right, every handoff send carries a handle
whose transport was already drained. -/
theorem c5_drain_before_handoff (s : SessionState) (evs : List SessionEvent) :
    checkDrainBeforeSend [] (runEvents s evs).2 = true :=
  checkDrainBeforeSend_runEvents evs s []

theorem c5_witness :
    checkDrainBeforeSend []
      (runEvents sampleSession
          [SessionEvent.startCall [] "pipe" (SpawnOutcome.ok 5), SessionEvent.ready,
           SessionEvent.accept "addr2" (Transport.nodeSocket 11) [3],
           SessionEvent.exit 1 "none"]).2 = true :=
  c5_drain_before_handoff sampleSession
    [SessionEvent.startCall [] "pipe" (SpawnOutcome.ok 5), SessionEvent.ready,
     SessionEvent.accept "addr2" (Transport.nodeSocket 11) [3],
     SessionEvent.exit 1 "none"]

/-- Claim C7: in listening-endpoint relay mode, teardown is symmetric and
one-shot — for any sequence of relay events, if any end/close/error event
occurred on either side then the client Transport was disposed exactly once
and the worker-side endpoint socket was destroyed exactly once; with no
such event, neither teardown effect occurs. -/
theorem c7_relay_teardown (t : Transport) (evs : List RelayEvent) :
    List.countP isDisposeTransport (runRelay ⟨t, false⟩ evs).2 =
      (if evs.any RelayEvent.isTeardown then 1 else 0) ∧
    List.countP isDestroyExtHostSocket (runRelay ⟨t, false⟩ evs).2 =
      (if evs.any RelayEvent.isTeardown then 1 else 0) := by
  induction evs with
  | nil => simp [runRelay]
  | cons e es ih =>
      cases e <;>
        simp [runRelay, relayStep, stopAndCleanup, RelayEvent.isTeardown,
              runRelay_torn, isDisposeTransport, isDestroyExtHostSocket, ih.1, ih.2]

theorem c7_witness :
    List.countP isDisposeTransport
      (runRelay ⟨Transport.nodeSocket 10, false⟩
          [RelayEvent.transportData [1], RelayEvent.extHostError,
           RelayEvent.transportClose, RelayEvent.extHostData [2]]).2 =
      (if ([RelayEvent.transportData [1], RelayEvent.extHostError,
            RelayEvent.transportClose, RelayEvent.extHostData [2]].any
          RelayEvent.isTeardown) then 1 else 0) ∧
    List.countP isDestroyExtHostSocket
      (runRelay ⟨Transport.nodeSocket 10, false⟩
          [RelayEvent.transportData [1], RelayEvent.extHostError,
           RelayEvent.transportClose, RelayEvent.extHostData [2]]).2 =
      (if ([RelayEvent.transportData [1], RelayEvent.extHostError,
            RelayEvent.transportClose, RelayEvent.extHostData [2]].any
          RelayEvent.isTeardown) then 1 else 0) :=
  c7_relay_teardown (Transport.nodeSocket 10)
    [RelayEvent.transportData [1], RelayEvent.extHostError,
     RelayEvent.transportClose, RelayEvent.extHostData [2]]

/-- Claim C10: the handoff strategy is decided once in the constructor and
never changes — the capability flag is true exactly when the platform is
not Windows or the socket-path argument is not (truthily) configured, no
event changes it, and start passes VSCODE_EXTHOST_WILL_SEND_SOCKET to the
worker in direct mode and the generated pipe name via
VSCODE_IPC_HOOK_EXTHOST in listening-endpoint mode. -/
theorem c10_handoff_strategy (reconnectionToken remoteAddress : String)
    (socket : Transport) (initialDataChunk : Bytes) (isWindows : Bool)
    (socketPathArg : Option String) (s : SessionState) (e : SessionEvent)
    (env : Env) (pipeName : String) (pid : Nat) :
    ((mkSession reconnectionToken remoteAddress socket initialDataChunk isWindows
        socketPathArg).canSendSocket = true ↔
      (isWindows = false ∨ isTruthy socketPathArg = false)) ∧
    (step s e).1.canSendSocket = s.canSendSocket ∧
    (step s (SessionEvent.startCall env pipeName (SpawnOutcome.ok pid))).2 =
      [Effect.spawned pid
        (if s.canSendSocket then envSet env "VSCODE_EXTHOST_WILL_SEND_SOCKET" (some "true")
         else envSet env "VSCODE_IPC_HOOK_EXTHOST" (some pipeName))] := by
  refine ⟨?_, ?_, rfl⟩
  · cases isWindows <;> cases h : isTruthy socketPathArg <;> simp [mkSession, h]
  · cases e with
    | startCall env2 pn outcome => cases outcome <;> simp [step, start]
    | accept addr sock chunk =>
        cases hpp : s.extensionHostProcess <;> simp [step, acceptReconnection, hpp]
    | shorten =>
        cases hpp : s.extensionHostProcess <;>
          simp [step, shortenReconnectionGraceTimeIfNecessary, hpp]
    | ready =>
        cases hpp : s.extensionHostProcess with
        | none => simp [step, workerReady, hpp]
        | some pid2 =>
            cases hr : s.readyListenerActive <;> simp [step, workerReady, hpp, hr]
    | exit code signal =>
        cases hd : s.disposed <;> simp [step, workerExit, cleanResources, hd]
    | error =>
        cases hd : s.disposed <;> simp [step, workerError, cleanResources, hd]

theorem c10_witness :
    ((mkSession "tok" "addr" (Transport.nodeSocket 10) [] true (some "sp")).canSendSocket = true ↔
      (true = false ∨ isTruthy (some "sp") = false)) ∧
    (step sampleSession SessionEvent.shorten).1.canSendSocket =
      sampleSession.canSendSocket ∧
    (step sampleSession (SessionEvent.startCall [] "pipe" (SpawnOutcome.ok 5))).2 =
      [Effect.spawned 5
        (if sampleSession.canSendSocket
         then envSet [] "VSCODE_EXTHOST_WILL_SEND_SOCKET" (some "true")
         else envSet [] "VSCODE_IPC_HOOK_EXTHOST" (some "pipe"))] :=
  c10_handoff_strategy "tok" "addr" (Transport.nodeSocket 10) [] true (some "sp")
    sampleSession SessionEvent.shorten [] "pipe" 5
